import Mathlib

/-!
Verification of the client-side data-fetching hook of the crypto-price-tracker
repository (`src/hooks/useDataFetcher.js`, the complete variant with per-record
validation, a hard retry cap and external recovery triggers).

The hook is a single-threaded, event-driven state machine.  We embed its
mutable closure state (`dataPoints`, `isLoading`, `error`,
`isWebSocketConnected`, `reconnectAttemptRef`, `reconnectTimeoutRef`,
`isMounted`, `wsRef`) as a Lean structure `HookState`, each event handler as a
function `HookState → HookState` translated line by line from the source, and
the browser's event delivery as a step function over an `Event` type.
JavaScript numbers reaching the hook always come out of `JSON.parse`, so they
are modelled by `JNum`: a finite rational, an infinity (produced e.g. by the
JSON literal `1e999`), or `NaN` (never produced by `JSON.parse`, but the code
tests for it, so the model keeps it representable).

Ghost instrumentation fields (`wsCreated`, `fetchRequests`) count constructor
and fetch calls; they let us state "no connection is ever created after
cleanup" and "no second bootstrap request is issued" as trace properties.
-/

/-- A JavaScript number as it can appear in a parsed JSON document:
a finite value (modelled as a rational), `Infinity` / `-Infinity`
(e.g. from the literal `1e999`), or `NaN`. -/
inductive JNum where
  | finite (q : ℚ) : JNum
  | posInf : JNum
  | negInf : JNum
  | nan : JNum

/-- A parsed JSON value (the result of `JSON.parse`). -/
inductive Json where
  | null : Json
  | bool (b : Bool) : Json
  | num (n : JNum) : Json
  | str (s : String) : Json
  | arr (elems : List Json) : Json
  | obj (fields : List (String × Json)) : Json

/-- Property lookup on a parsed JSON object.  `JSON.parse` keeps the last
occurrence of a duplicated key, hence the `reverse`. -/
def jsLookup (fields : List (String × Json)) (key : String) : Option Json :=
  (fields.reverse.find? (fun kv => kv.1 == key)).map (fun kv => kv.2)

/-- The required-field list `requiredFields` from the message validator. -/
def requiredFields : List String :=
  ["id", "asset_id", "timestamp", "price_usd", "volume_24h"]

/-- The JS check `typeof v !== 'number' || isNaN(v)`, negated: `v` is a
number and is not `NaN`. -/
def isNonNaNNumber : Option Json → Bool
  | some (Json.num JNum.nan) => false
  | some (Json.num _) => true
  | _ => false

/-- The per-record predicate of the validator inside `onmessage`:
the candidate must be a non-null object (in JS, `!point || typeof point
!== 'object'` rejects everything except objects and arrays, and an array
has none of the required own properties, so it dies at the field check;
we fold both into the object case), all five required fields must be
present, and `price_usd` / `volume_24h` must be non-`NaN` numbers. -/
def isValidPoint : Json → Bool
  | Json.obj fields =>
      (requiredFields.all fun f => (jsLookup fields f).isSome)
        && isNonNaNNumber (jsLookup fields "price_usd")
        && isNonNaNNumber (jsLookup fields "volume_24h")
  | _ => false

/-- The backoff table `RECONNECT_DELAYS = [1000, 2000, 4000, 8000, 16000, 30000]` (ms). -/
def RECONNECT_DELAYS : List ℕ := [1000, 2000, 4000, 8000, 16000, 30000]

/-- The hard retry cap `MAX_RECONNECT_ATTEMPTS = 10`. -/
def MAX_RECONNECT_ATTEMPTS : ℕ := 10

/-- The `WebSocket.readyState` values. -/
inductive WsReadyState where
  | CONNECTING : WsReadyState
  | OPEN : WsReadyState
  | CLOSING : WsReadyState
  | CLOSED : WsReadyState
deriving DecidableEq

/-- The mutable state owned by one run of the hook's effect: the React
state cells, the refs, the `isMounted` flag, the current WebSocket's
ready state (`none` before the first `new WebSocket`), whether the
recovery listeners are attached, and two ghost counters (number of
`new WebSocket` constructor calls, number of bootstrap fetch calls). -/
structure HookState where
  dataPoints : List Json
  isLoading : Bool
  error : Option String
  isWebSocketConnected : Bool
  reconnectAttempt : ℕ
  reconnectTimeout : Option ℕ
  isMounted : Bool
  ws : Option WsReadyState
  listenersAttached : Bool
  wsCreated : ℕ
  fetchRequests : ℕ

/-- The `setupWebSocket` function: clear any pending reconnection timeout and create a
new WebSocket (ready state `CONNECTING`); the ghost counter records the
constructor call. -/
def setupWebSocket (s : HookState) : HookState :=
  { s with reconnectTimeout := none,
           ws := some WsReadyState.CONNECTING,
           wsCreated := s.wsCreated + 1 }

/-- The `onopen` handler: clear any pending reconnection timer, reset the
attempt counter to 0, and (if mounted) set the connected flag. -/
def onopen (s : HookState) : HookState :=
  { s with reconnectTimeout := none,
           reconnectAttempt := 0,
           isWebSocketConnected :=
             if s.isMounted then true else s.isWebSocketConnected }

/-- The `onmessage` handler.  `payload` is the result of
`JSON.parse(event.data)`, with `none` standing for a parse exception.
Non-array payloads are discarded; array payloads are filtered
element-wise by `isValidPoint`; an all-invalid batch is skipped; a batch
with at least one valid record is appended and the series truncated with
`slice(-500)` (drop from the front down to the last 500). -/
def onmessage (payload : Option Json) (s : HookState) : HookState :=
  if s.isMounted then
    match payload with
    | none => s
    | some j =>
      match j with
      | Json.arr newDataBatch =>
          let validatedData := newDataBatch.filter isValidPoint
          if validatedData.isEmpty then s
          else
            let updatedData := s.dataPoints ++ validatedData
            { s with dataPoints := updatedData.drop (updatedData.length - 500) }
      | _ => s
  else s

/-- The `attemptReconnect` function: bail out when unmounted; at or above
`MAX_RECONNECT_ATTEMPTS` enter the suspended state (no timer scheduled);
otherwise schedule a timer for `RECONNECT_DELAYS[min(attempt, 5)]`. -/
def attemptReconnect (s : HookState) : HookState :=
  if s.isMounted then
    if MAX_RECONNECT_ATTEMPTS ≤ s.reconnectAttempt then
      { s with isWebSocketConnected := false }
    else
      let delayIndex := min s.reconnectAttempt (RECONNECT_DELAYS.length - 1)
      { s with reconnectTimeout := some (RECONNECT_DELAYS.getD delayIndex 0) }
  else s

/-- The `onclose` handler (the ready-state change to `CLOSED` itself is
applied by the event semantics in `step`): if mounted, clear the
connected flag and hand off to `attemptReconnect`. -/
def onclose (s : HookState) : HookState :=
  if s.isMounted then
    attemptReconnect { s with isWebSocketConnected := false }
  else s

/-- The body of the `setTimeout` callback scheduled by `attemptReconnect`:
if still mounted, increment the attempt counter and open a new
connection. -/
def timerCallback (s : HookState) : HookState :=
  if s.isMounted then
    setupWebSocket { s with reconnectAttempt := s.reconnectAttempt + 1 }
  else s

/-- The `handleRecoveryTrigger` handler (visibilitychange / online): when the current
connection is absent or not `OPEN`, reset the attempt counter, clear any
pending timer, and open a new connection immediately. -/
def handleRecoveryTrigger (s : HookState) : HookState :=
  if s.ws = some WsReadyState.OPEN then s
  else
    setupWebSocket { s with reconnectAttempt := 0, reconnectTimeout := none }

/-- Resolution of the bootstrap fetch with a successfully parsed body
`initialData`: if mounted, replace the whole series and mark loading
complete.  Note: no truncation is applied on this path. -/
def fetchResolve (initialData : List Json) (s : HookState) : HookState :=
  if s.isMounted then
    { s with dataPoints := initialData, isLoading := false }
  else s

/-- Rejection of the bootstrap fetch (network error, non-2xx status or
body parse failure): if mounted, record the user-visible error and mark
loading complete.  No retry is initiated. -/
def fetchReject (s : HookState) : HookState :=
  if s.isMounted then
    { s with error := some "Could not connect to Python HTTP API.",
             isLoading := false }
  else s

/-- The effect's cleanup function: clear `isMounted`, unsubscribe the
recovery listeners, cancel any pending reconnection timeout, and close
the WebSocket when its ready state is `OPEN` (`readyState === 1`). -/
def cleanup (s : HookState) : HookState :=
  let s1 := { s with isMounted := false,
                     listenersAttached := false,
                     reconnectTimeout := none }
  if s1.ws = some WsReadyState.OPEN then
    { s1 with ws := some WsReadyState.CLOSING }
  else s1

/-- The discrete events the environment can deliver to the hook. -/
inductive Event where
  | wsOpen : Event
  | wsMessage (payload : Option Json) : Event
  | wsError : Event
  | wsClose : Event
  | timerFire : Event
  | recoveryTrigger : Event
  | fetchSuccess (initialData : List Json) : Event
  | fetchFailure : Event
  | unmount : Event

/-- Event delivery semantics.  The browser's preconditions are encoded as
guards: `open` fires only on a `CONNECTING` socket (and flips its ready
state first), `message` only on an `OPEN` socket, `close` only on a
not-yet-`CLOSED` socket, a timer only when one is pending, a recovery
trigger only while the listeners are attached, and cleanup only while
mounted.  `onerror` only logs. -/
def step (s : HookState) : Event → HookState
  | Event.wsOpen =>
      if s.ws = some WsReadyState.CONNECTING then
        onopen { s with ws := some WsReadyState.OPEN }
      else s
  | Event.wsMessage payload =>
      if s.ws = some WsReadyState.OPEN then onmessage payload s else s
  | Event.wsError => s
  | Event.wsClose =>
      match s.ws with
      | some st =>
          if st = WsReadyState.CLOSED then s
          else onclose { s with ws := some WsReadyState.CLOSED }
      | none => s
  | Event.timerFire =>
      match s.reconnectTimeout with
      | some _ => timerCallback { s with reconnectTimeout := none }
      | none => s
  | Event.recoveryTrigger =>
      if s.listenersAttached then handleRecoveryTrigger s else s
  | Event.fetchSuccess initialData => fetchResolve initialData s
  | Event.fetchFailure => fetchReject s
  | Event.unmount => if s.isMounted then cleanup s else s

/-- The state right after the synchronous body of the mount effect:
empty series, loading, no error, one fetch issued, one WebSocket
created (`CONNECTING`), recovery listeners attached. -/
def mountState : HookState :=
  { dataPoints := []
    isLoading := true
    error := none
    isWebSocketConnected := false
    reconnectAttempt := 0
    reconnectTimeout := none
    isMounted := true
    ws := some WsReadyState.CONNECTING
    listenersAttached := true
    wsCreated := 1
    fetchRequests := 1 }

/-- One close/retry cycle of a run of consecutive closes with no external
trigger: the close event (which schedules a retry) followed by the
timer firing (which opens the next attempt). -/
def closeFireRun (s : HookState) : ℕ → HookState
  | 0 => s
  | n + 1 => step (step (closeFireRun s n) Event.wsClose) Event.timerFire

/-- A fully valid sample record. -/
def goodPoint : Json :=
  Json.obj [("id", Json.num (JNum.finite 1)), ("asset_id", Json.str "BTC"),
    ("timestamp", Json.str "2024-01-01T00:00:00Z"),
    ("price_usd", Json.num (JNum.finite 60000)),
    ("volume_24h", Json.num (JNum.finite 100))]

/-- A record that passes the code's validator but has an empty `asset_id`,
violating the data-model invariant stated by the spec. -/
def emptyAssetPoint : Json :=
  Json.obj [("id", Json.num (JNum.finite 2)), ("asset_id", Json.str ""),
    ("timestamp", Json.str "2024-01-01T00:00:01Z"),
    ("price_usd", Json.num (JNum.finite 60010)),
    ("volume_24h", Json.num (JNum.finite 101))]

/-- A malformed candidate record. -/
def badPoint : Json := Json.obj [("bad", Json.str "data")]

/-- The state `mountState` with the initial connection established. -/
def openConnState : HookState :=
  { mountState with ws := some WsReadyState.OPEN, isWebSocketConnected := true }

/-- The suspended state: retry budget exhausted, socket closed, no timer. -/
def suspendedState : HookState :=
  { mountState with reconnectAttempt := 10, ws := some WsReadyState.CLOSED,
                    wsCreated := 11 }

/-- The data-model invariant in the spec's words (§3): `price_usd` and
`volume_24h` are finite numbers and `asset_id` is a non-empty string.
This definition follows the spec, not the code, and is only used to
compare the code's validator against it. -/
def specDataPointInvariant : Json → Bool
  | Json.obj fields =>
      (match jsLookup fields "price_usd" with
        | some (Json.num (JNum.finite _)) => true
        | _ => false)
      && (match jsLookup fields "volume_24h" with
        | some (Json.num (JNum.finite _)) => true
        | _ => false)
      && (match jsLookup fields "asset_id" with
        | some (Json.str a) => !(a == "")
        | _ => false)
  | _ => false

/-! Helper lemmas -/

/-- No event handler ever issues another bootstrap fetch. -/
theorem step_fetchRequests (s : HookState) (e : Event) :
    (step s e).fetchRequests = s.fetchRequests := by
  cases e <;>
    simp only [step, onopen, onmessage, onclose, attemptReconnect, timerCallback,
      handleRecoveryTrigger, setupWebSocket, fetchResolve, fetchReject, cleanup] <;>
    (repeat' split) <;> rfl

/-- No event sequence ever issues another bootstrap fetch. -/
theorem foldl_step_fetchRequests (es : List Event) : ∀ s : HookState,
    (es.foldl step s).fetchRequests = s.fetchRequests := by
  induction es with
  | nil => intro s; rfl
  | cons e t ih => intro s; rw [List.foldl_cons, ih, step_fetchRequests]

/-- Once the hook is unmounted and its recovery listeners are removed, no
event re-mounts it, re-attaches listeners, or creates a WebSocket. -/
theorem step_dead_frame (s : HookState) (e : Event)
    (hm : s.isMounted = false) (hl : s.listenersAttached = false) :
    (step s e).isMounted = false ∧ (step s e).listenersAttached = false
      ∧ (step s e).wsCreated = s.wsCreated := by
  cases e <;>
    simp only [step, onopen, onmessage, onclose, attemptReconnect, timerCallback,
      handleRecoveryTrigger, setupWebSocket, fetchResolve, fetchReject, cleanup] <;>
    (repeat' split) <;> simp_all

/-- After unmount-and-unsubscribe, no event sequence creates a WebSocket. -/
theorem foldl_step_dead_wsCreated (es : List Event) : ∀ s : HookState,
    s.isMounted = false → s.listenersAttached = false →
      (es.foldl step s).wsCreated = s.wsCreated := by
  induction es with
  | nil => intro s _ _; rfl
  | cons e t ih =>
    intro s hm hl
    obtain ⟨h1, h2, h3⟩ := step_dead_frame s e hm hl
    rw [List.foldl_cons, ih _ h1 h2, h3]

/-- The lengths of the kept and the dropped parts of a filter add up. -/
theorem filter_length_partition {α : Type} (p : α → Bool) (l : List α) :
    (l.filter p).length + (l.filter fun a => !(p a)).length = l.length := by
  induction l with
  | nil => rfl
  | cons a t ih => cases h : p a <;> simp [List.filter_cons, h] <;> omega

/-- A close on a live socket below the retry cap schedules a timer for
`RECONNECT_DELAYS[min(attempt, len-1)]` without touching the counter. -/
theorem step_wsClose_schedules (t : HookState) (hm : t.isMounted = true)
    (hlt : t.reconnectAttempt < MAX_RECONNECT_ATTEMPTS)
    (hw : t.ws = some WsReadyState.OPEN ∨ t.ws = some WsReadyState.CONNECTING) :
    (step t Event.wsClose).isMounted = true
      ∧ (step t Event.wsClose).reconnectAttempt = t.reconnectAttempt
      ∧ (step t Event.wsClose).reconnectTimeout
          = some (RECONNECT_DELAYS.getD
              (min t.reconnectAttempt (RECONNECT_DELAYS.length - 1)) 0)
      ∧ (step t Event.wsClose).ws = some WsReadyState.CLOSED := by
  rcases hw with h | h <;>
    simp [step, h, onclose, hm, attemptReconnect, Nat.not_le.2 hlt]

/-- A close at or above the retry cap enters the suspended state: no
timer is scheduled and the counter is left as is. -/
theorem step_wsClose_suspends (t : HookState) (hm : t.isMounted = true)
    (hge : MAX_RECONNECT_ATTEMPTS ≤ t.reconnectAttempt) :
    (step t Event.wsClose).isMounted = true
      ∧ (step t Event.wsClose).reconnectAttempt = t.reconnectAttempt
      ∧ (step t Event.wsClose).reconnectTimeout = t.reconnectTimeout
      ∧ ((step t Event.wsClose).ws = t.ws
          ∨ (step t Event.wsClose).ws = some WsReadyState.CLOSED) := by
  rcases hws : t.ws with _ | st
  · simp [step, hws, hm]
  · by_cases hst : st = WsReadyState.CLOSED
    · simp [step, hws, hst, hm]
    · simp [step, hws, hst, onclose, hm, attemptReconnect, hge]

/-- A pending timer fires: the counter is incremented and a fresh
connection attempt starts. -/
theorem step_timerFire_opens (t : HookState) (d : ℕ) (hm : t.isMounted = true)
    (ht : t.reconnectTimeout = some d) :
    (step t Event.timerFire).isMounted = true
      ∧ (step t Event.timerFire).reconnectAttempt = t.reconnectAttempt + 1
      ∧ (step t Event.timerFire).reconnectTimeout = none
      ∧ (step t Event.timerFire).ws = some WsReadyState.CONNECTING := by
  simp [step, ht, timerCallback, hm, setupWebSocket]

/-- Without a pending timer the timer event is a no-op. -/
theorem step_timerFire_noop (t : HookState) (ht : t.reconnectTimeout = none) :
    step t Event.timerFire = t := by
  simp [step, ht]

/-- Invariant of a run of consecutive closes started from a freshly
opened connection: after n close/fire cycles (n ≤ 10) the hook is still
mounted, the attempt counter equals n, no timer is pending and a socket
is live. -/
theorem closeFireRun_spec (s : HookState) (hm : s.isMounted = true)
    (h0 : s.reconnectAttempt = 0) (hw : s.ws = some WsReadyState.OPEN)
    (ht : s.reconnectTimeout = none) :
    ∀ n, n ≤ MAX_RECONNECT_ATTEMPTS →
      (closeFireRun s n).isMounted = true
        ∧ (closeFireRun s n).reconnectAttempt = n
        ∧ (closeFireRun s n).reconnectTimeout = none
        ∧ ((closeFireRun s n).ws = some WsReadyState.OPEN
            ∨ (closeFireRun s n).ws = some WsReadyState.CONNECTING) := by
  intro n
  induction n with
  | zero => intro _; exact ⟨hm, h0, ht, Or.inl hw⟩
  | succ n ih =>
    intro hn
    have hn10 : n + 1 ≤ 10 := hn
    obtain ⟨im, ia, it, iw⟩ := ih (by show n ≤ 10; omega)
    have hlt : (closeFireRun s n).reconnectAttempt < MAX_RECONNECT_ATTEMPTS := by
      rw [ia]; show n < 10; omega
    obtain ⟨c1, c2, c3, c4⟩ := step_wsClose_schedules _ im hlt iw
    obtain ⟨d1, d2, d3, d4⟩ := step_timerFire_opens _ _ c1 c3
    simp only [closeFireRun]
    exact ⟨d1, by rw [d2, c2, ia], d3, Or.inr d4⟩

/-- After the retry budget is exhausted the run is stationary: the
counter stays at the cap, no timer is ever pending, and the socket is
live or closed. -/
theorem closeFireRun_suspended (s : HookState) (hm : s.isMounted = true)
    (h0 : s.reconnectAttempt = 0) (hw : s.ws = some WsReadyState.OPEN)
    (ht : s.reconnectTimeout = none) :
    ∀ m, (closeFireRun s (MAX_RECONNECT_ATTEMPTS + m)).isMounted = true
      ∧ (closeFireRun s (MAX_RECONNECT_ATTEMPTS + m)).reconnectAttempt
          = MAX_RECONNECT_ATTEMPTS
      ∧ (closeFireRun s (MAX_RECONNECT_ATTEMPTS + m)).reconnectTimeout = none
      ∧ ((closeFireRun s (MAX_RECONNECT_ATTEMPTS + m)).ws = some WsReadyState.OPEN
          ∨ (closeFireRun s (MAX_RECONNECT_ATTEMPTS + m)).ws = some WsReadyState.CONNECTING
          ∨ (closeFireRun s (MAX_RECONNECT_ATTEMPTS + m)).ws = some WsReadyState.CLOSED) := by
  intro m
  induction m with
  | zero =>
    obtain ⟨im, ia, it, iw⟩ := closeFireRun_spec s hm h0 hw ht
      MAX_RECONNECT_ATTEMPTS (Nat.le_refl _)
    exact ⟨im, ia, it, iw.imp id Or.inl⟩
  | succ m ih =>
    obtain ⟨im, ia, it, iw⟩ := ih
    obtain ⟨c1, c2, c3, c4⟩ := step_wsClose_suspends _ im ia.ge
    have hrun : closeFireRun s (MAX_RECONNECT_ATTEMPTS + (m + 1))
        = step (step (closeFireRun s (MAX_RECONNECT_ATTEMPTS + m)) Event.wsClose)
            Event.timerFire := rfl
    have hfire := step_timerFire_noop (step (closeFireRun s (MAX_RECONNECT_ATTEMPTS + m))
      Event.wsClose) (by rw [c3, it])
    rw [hrun, hfire]
    refine ⟨c1, by rw [c2, ia], by rw [c3, it], ?_⟩
    rcases c4 with h | h
    · rw [h]
      exact iw
    · exact Or.inr (Or.inr h)

/-! Claims -/

/-- C3: in a run of consecutive closes with no external trigger and no
successful open, started from a freshly opened connection, the Nth
scheduled reconnect delay equals `RECONNECT_DELAYS[min(N-1, 5)]` for
N = 1..10, and after the attempt counter reaches 10 no further close
ever schedules a retry (the scheduler suspends). -/
theorem reconnect_backoff_schedule (s : HookState) (hm : s.isMounted = true)
    (h0 : s.reconnectAttempt = 0) (hw : s.ws = some WsReadyState.OPEN)
    (ht : s.reconnectTimeout = none) :
    (∀ N, 1 ≤ N → N ≤ 10 →
        (step (closeFireRun s (N - 1)) Event.wsClose).reconnectTimeout
          = some (RECONNECT_DELAYS.getD (min (N - 1) 5) 0))
      ∧ ∀ m, (step (closeFireRun s (MAX_RECONNECT_ATTEMPTS + m))
          Event.wsClose).reconnectTimeout = none := by
  constructor
  · intro N h1 h10
    obtain ⟨im, ia, it, iw⟩ := closeFireRun_spec s hm h0 hw ht (N - 1)
      (by show N - 1 ≤ 10; omega)
    have hlt : (closeFireRun s (N - 1)).reconnectAttempt < MAX_RECONNECT_ATTEMPTS := by
      rw [ia]; show N - 1 < 10; omega
    obtain ⟨_, _, c3, _⟩ := step_wsClose_schedules _ im hlt iw
    rw [c3, ia]
    rfl
  · intro m
    obtain ⟨im, ia, it, iw⟩ := closeFireRun_suspended s hm h0 hw ht m
    obtain ⟨_, _, c3, _⟩ := step_wsClose_suspends _ im ia.ge
    rw [c3, it]

/-- Witness for C3: started at the freshly connected state, the 1st
scheduled delay is 1s, the 7th is 30s (table capped), and the close
after the 10th failed attempt schedules nothing. -/
theorem reconnect_backoff_schedule_witness :
    (step (closeFireRun openConnState 0) Event.wsClose).reconnectTimeout = some 1000
      ∧ (step (closeFireRun openConnState 6) Event.wsClose).reconnectTimeout = some 30000
      ∧ (step (closeFireRun openConnState (MAX_RECONNECT_ATTEMPTS + 0))
          Event.wsClose).reconnectTimeout = none := by
  have h := reconnect_backoff_schedule openConnState rfl rfl rfl rfl
  exact ⟨h.1 1 (by omega) (by omega), h.1 7 (by omega) (by omega), h.2 0⟩

/-- C7: after every successful open event, the attempt counter equals 0,
regardless of its value prior to the open and regardless of which path
initiated the open (the statement quantifies over every state with a
connecting socket). -/
theorem open_resets_attempt_counter (s : HookState)
    (hw : s.ws = some WsReadyState.CONNECTING) :
    (step s Event.wsOpen).reconnectAttempt = 0 := by
  simp [step, hw, onopen]

/-- Witness for C7: a pending connection with seven failed attempts behind
it opens, and the counter drops to 0. -/
theorem open_resets_attempt_counter_witness :
    (step { mountState with reconnectAttempt := 7 } Event.wsOpen).reconnectAttempt = 0 :=
  open_resets_attempt_counter { mountState with reconnectAttempt := 7 } rfl

/-- C4 counterexample: with the bootstrap error surfaced and a connecting
socket, the open event fires and the error is NOT cleared — `onopen`
never touches the error cell. -/
theorem open_leaves_error_cex :
    (step { mountState with error := some "Could not connect to Python HTTP API." }
        Event.wsOpen).error = some "Could not connect to Python HTTP API."
      ∧ (step { mountState with error := some "Could not connect to Python HTTP API." }
          Event.wsOpen).error ≠ none := by
  exact ⟨rfl, by decide⟩

/-- C4 amended: on a successful open the attempt counter is reset, any
pending timer is cancelled and (when mounted) the connected flag is set,
but a previously surfaced user-visible error persists unchanged. -/
theorem open_success_effects (s : HookState)
    (hw : s.ws = some WsReadyState.CONNECTING) :
    (step s Event.wsOpen).reconnectAttempt = 0
      ∧ (step s Event.wsOpen).reconnectTimeout = none
      ∧ (s.isMounted = true → (step s Event.wsOpen).isWebSocketConnected = true)
      ∧ (step s Event.wsOpen).error = s.error := by
  refine ⟨by simp [step, hw, onopen], by simp [step, hw, onopen], ?_, by simp [step, hw, onopen]⟩
  intro hm
  simp [step, hw, onopen, hm]

/-- Witness for C4 (amended): the effects of a successful open on the
freshly mounted state. -/
theorem open_success_effects_witness :
    (step mountState Event.wsOpen).reconnectAttempt = 0
      ∧ (step mountState Event.wsOpen).reconnectTimeout = none
      ∧ (mountState.isMounted = true → (step mountState Event.wsOpen).isWebSocketConnected = true)
      ∧ (step mountState Event.wsOpen).error = mountState.error :=
  open_success_effects mountState rfl

/-- C10: a recovery trigger delivered while the connection is open leaves
the entire hook state unchanged — attempt counter, timers, socket,
series and flags. -/
theorem recovery_trigger_noop_when_open (s : HookState)
    (hw : s.ws = some WsReadyState.OPEN) :
    step s Event.recoveryTrigger = s := by
  simp [step, handleRecoveryTrigger, hw]

/-- Witness for C10: the trigger is a no-op on the connected state. -/
theorem recovery_trigger_noop_when_open_witness :
    step openConnState Event.recoveryTrigger = openConnState :=
  recovery_trigger_noop_when_open openConnState rfl

/-- C6: a recovery trigger delivered while the connection is not open
(including from the suspended state) cancels any pending retry timer,
resets the attempt counter to 0 and immediately creates a new
connection, bypassing the backoff schedule. -/
theorem recovery_trigger_reconnects (s : HookState)
    (hl : s.listenersAttached = true)
    (hw : s.ws ≠ some WsReadyState.OPEN) :
    (step s Event.recoveryTrigger).reconnectAttempt = 0
      ∧ (step s Event.recoveryTrigger).reconnectTimeout = none
      ∧ (step s Event.recoveryTrigger).ws = some WsReadyState.CONNECTING
      ∧ (step s Event.recoveryTrigger).wsCreated = s.wsCreated + 1 := by
  simp [step, hl, handleRecoveryTrigger, hw, setupWebSocket]

/-- Witness for C6: a trigger fired in the suspended state (attempt
counter 10, socket closed) reconnects immediately with counter 0. -/
theorem recovery_trigger_reconnects_witness :
    (step suspendedState Event.recoveryTrigger).reconnectAttempt = 0
      ∧ (step suspendedState Event.recoveryTrigger).reconnectTimeout = none
      ∧ (step suspendedState Event.recoveryTrigger).ws = some WsReadyState.CONNECTING
      ∧ (step suspendedState Event.recoveryTrigger).wsCreated = suspendedState.wsCreated + 1 :=
  recovery_trigger_reconnects suspendedState rfl (by decide)

/-- C9: a bootstrap fetch failure marks loading complete, records the
user-visible error message, leaves the series unchanged, and no event
from then on (hence no code path at all) issues a second bootstrap
request. -/
theorem bootstrap_failure_no_retry (s : HookState) (hm : s.isMounted = true) :
    (step s Event.fetchFailure).isLoading = false
      ∧ (step s Event.fetchFailure).error = some "Could not connect to Python HTTP API."
      ∧ (step s Event.fetchFailure).dataPoints = s.dataPoints
      ∧ ∀ es : List Event,
          (es.foldl step (step s Event.fetchFailure)).fetchRequests = s.fetchRequests := by
  refine ⟨by simp [step, fetchReject, hm], by simp [step, fetchReject, hm],
    by simp [step, fetchReject, hm], ?_⟩
  intro es
  rw [foldl_step_fetchRequests, step_fetchRequests]

/-- Witness for C9: bootstrap failure on the freshly mounted state, with a
sample subsequent event trace that issues no further fetch. -/
theorem bootstrap_failure_no_retry_witness :
    (step mountState Event.fetchFailure).isLoading = false
      ∧ (([Event.wsClose, Event.timerFire].foldl step
            (step mountState Event.fetchFailure)).fetchRequests = mountState.fetchRequests) := by
  have h := bootstrap_failure_no_retry mountState rfl
  exact ⟨h.1, h.2.2.2 [Event.wsClose, Event.timerFire]⟩

/-- C8: deactivating a mounted component cancels any pending retry timer,
leaves no open connection (an `OPEN` socket is closed by the cleanup),
and no subsequent event sequence — a late timer fire included — ever
creates another WebSocket. -/
theorem unmount_stops_reconnects (s : HookState) (hm : s.isMounted = true) :
    (step s Event.unmount).reconnectTimeout = none
      ∧ (step s Event.unmount).ws ≠ some WsReadyState.OPEN
      ∧ ∀ es : List Event,
          (es.foldl step (step s Event.unmount)).wsCreated
            = (step s Event.unmount).wsCreated := by
  have hstep : step s Event.unmount = cleanup s := by simp [step, hm]
  by_cases hws : s.ws = some WsReadyState.OPEN
  · have hc : step s Event.unmount
        = { s with isMounted := false, listenersAttached := false,
                   reconnectTimeout := none, ws := some WsReadyState.CLOSING } := by
      rw [hstep]; simp [cleanup, hws]
    rw [hc]
    exact ⟨rfl, by simp, fun es => foldl_step_dead_wsCreated es _ rfl rfl⟩
  · have hc : step s Event.unmount
        = { s with isMounted := false, listenersAttached := false,
                   reconnectTimeout := none } := by
      rw [hstep]; simp [cleanup, hws]
    rw [hc]
    exact ⟨rfl, by simpa using hws, fun es => foldl_step_dead_wsCreated es _ rfl rfl⟩

/-- Witness for C8: cleanup of a state with a pending retry timer and an
open socket; a sample post-unmount trace (a close, a timer fire and a
recovery trigger) creates no connection. -/
theorem unmount_stops_reconnects_witness :
    (step { openConnState with reconnectTimeout := some 4000 } Event.unmount).reconnectTimeout = none
      ∧ (step { openConnState with reconnectTimeout := some 4000 } Event.unmount).ws
          ≠ some WsReadyState.OPEN
      ∧ (([Event.wsClose, Event.timerFire, Event.recoveryTrigger].foldl step
            (step { openConnState with reconnectTimeout := some 4000 } Event.unmount)).wsCreated
          = (step { openConnState with reconnectTimeout := some 4000 } Event.unmount).wsCreated) := by
  have h := unmount_stops_reconnects { openConnState with reconnectTimeout := some 4000 } rfl
  exact ⟨h.1, h.2.1, h.2.2 [Event.wsClose, Event.timerFire, Event.recoveryTrigger]⟩

/-- C1: a stream message whose payload is an array of N candidates of
which K fail validation, with K < N, appends exactly the N-K valid
records (an ordered sublist of the batch) and nothing else; the series
is then truncated to its last 500 entries, so the result is exactly the
500-suffix of the old series followed by the valid records. -/
theorem message_appends_valid_records (s : HookState) (newDataBatch : List Json)
    (hm : s.isMounted = true) (hw : s.ws = some WsReadyState.OPEN)
    (hK : (newDataBatch.filter fun p => !(isValidPoint p)).length < newDataBatch.length) :
    ((step s (Event.wsMessage (some (Json.arr newDataBatch)))).dataPoints
        = (s.dataPoints ++ newDataBatch.filter isValidPoint).drop
            ((s.dataPoints ++ newDataBatch.filter isValidPoint).length - 500))
      ∧ (newDataBatch.filter isValidPoint).Sublist newDataBatch
      ∧ (newDataBatch.filter isValidPoint).length
          = newDataBatch.length
              - (newDataBatch.filter fun p => !(isValidPoint p)).length := by
  have hpart := filter_length_partition isValidPoint newDataBatch
  have hpos : 0 < (newDataBatch.filter isValidPoint).length := by omega
  have hne : (newDataBatch.filter isValidPoint).isEmpty = false := by
    cases h : newDataBatch.filter isValidPoint with
    | nil => rw [h] at hpos; simp at hpos
    | cons a t => rfl
  refine ⟨?_, List.filter_sublist _, by omega⟩
  simp [step, hw, onmessage, hm, hne]

/-- Witness for C1: a batch with one valid and one malformed record
delivered on the open connection appends exactly the valid record. -/
theorem message_appends_valid_records_witness :
    ((step openConnState (Event.wsMessage (some (Json.arr [goodPoint, badPoint])))).dataPoints
        = (openConnState.dataPoints ++ [goodPoint, badPoint].filter isValidPoint).drop
            ((openConnState.dataPoints ++ [goodPoint, badPoint].filter isValidPoint).length - 500))
      ∧ ([goodPoint, badPoint].filter isValidPoint).Sublist [goodPoint, badPoint]
      ∧ ([goodPoint, badPoint].filter isValidPoint).length
          = ([goodPoint, badPoint] : List Json).length
              - (([goodPoint, badPoint] : List Json).filter fun p => !(isValidPoint p)).length :=
  message_appends_valid_records openConnState [goodPoint, badPoint] rfl rfl (by decide)

/-- C5 counterexample: a record with an empty `asset_id` passes the code's
validator (which only tests field presence, not content) and enters the
series, violating the spec's data-model invariant. -/
theorem series_invariant_cex :
    isValidPoint emptyAssetPoint = true
      ∧ (step openConnState
            (Event.wsMessage (some (Json.arr [emptyAssetPoint])))).dataPoints
          = [emptyAssetPoint]
      ∧ specDataPointInvariant emptyAssetPoint = false :=
  ⟨rfl, rfl, rfl⟩

/-- Characterization of `onmessage`: it either leaves the state unchanged
or the payload is an array whose validated subset is non-empty, in which
case exactly that subset is appended and the series truncated to its
last 500 entries. -/
theorem onmessage_cases (payload : Option Json) (s : HookState) :
    onmessage payload s = s
      ∨ ∃ newDataBatch : List Json,
          payload = some (Json.arr newDataBatch)
            ∧ (newDataBatch.filter isValidPoint).isEmpty = false
            ∧ (onmessage payload s).dataPoints
                = (s.dataPoints ++ newDataBatch.filter isValidPoint).drop
                    ((s.dataPoints ++ newDataBatch.filter isValidPoint).length - 500) := by
  by_cases hm : s.isMounted = true
  · cases payload with
    | none => exact Or.inl (by simp [onmessage, hm])
    | some j =>
      cases j with
      | arr newDataBatch =>
        by_cases hne : (newDataBatch.filter isValidPoint).isEmpty = true
        · exact Or.inl (by simp [onmessage, hm, hne])
        · refine Or.inr ⟨newDataBatch, rfl, by simpa using hne, ?_⟩
          simp [onmessage, hm, hne]
      | null => exact Or.inl (by simp [onmessage, hm])
      | bool b => exact Or.inl (by simp [onmessage, hm])
      | num n => exact Or.inl (by simp [onmessage, hm])
      | str t => exact Or.inl (by simp [onmessage, hm])
      | obj fields => exact Or.inl (by simp [onmessage, hm])
  · exact Or.inl (by simp [onmessage, hm])

/-- C5 amended: every point a stream-message update adds to the series
passes the code's validator — it is an object carrying all five required
fields whose `price_usd` and `volume_24h` are non-NaN numbers; neither
finiteness nor the content of `asset_id` is enforced, and the bootstrap
replace-all performs no validation at all. -/
theorem message_update_points_validated (s : HookState) (payload : Option Json)
    (x : Json) (hx : x ∈ (step s (Event.wsMessage payload)).dataPoints) :
    x ∈ s.dataPoints ∨ isValidPoint x = true := by
  by_cases hws : s.ws = some WsReadyState.OPEN
  · rw [show step s (Event.wsMessage payload) = onmessage payload s from by
      simp [step, hws]] at hx
    rcases onmessage_cases payload s with h | ⟨newDataBatch, _, _, h⟩
    · rw [h] at hx
      exact Or.inl hx
    · rw [h] at hx
      have hmem : x ∈ s.dataPoints ++ newDataBatch.filter isValidPoint :=
        List.drop_subset _ _ hx
      rcases List.mem_append.1 hmem with h1 | h1
      · exact Or.inl h1
      · exact Or.inr (List.mem_filter.1 h1).2
  · rw [show step s (Event.wsMessage payload) = s from by simp [step, hws]] at hx
    exact Or.inl hx

/-- Witness for C5 (amended): the valid record appended by a concrete
message update indeed passes the validator. -/
theorem message_update_points_validated_witness :
    goodPoint ∈ openConnState.dataPoints ∨ isValidPoint goodPoint = true :=
  message_update_points_validated openConnState
    (some (Json.arr [goodPoint])) goodPoint (by exact List.Mem.head _)

/-- C2 counterexample: a successful bootstrap of 501 valid points is
installed without truncation, so the series length exceeds the cap. -/
theorem series_cap_cex :
    ¬ ((step mountState
          (Event.fetchSuccess (List.replicate 501 goodPoint))).dataPoints.length ≤ 500) := by
  have h : (step mountState
      (Event.fetchSuccess (List.replicate 501 goodPoint))).dataPoints
        = List.replicate 501 goodPoint := rfl
  rw [h, List.length_replicate]
  omega

/-- C2 amended: every stream-message update either leaves the series
unchanged or appends a non-empty validated batch and bounds the result
to at most 500 points, evicting exactly the oldest points by insertion
order (the evicted points are the initial prefix of the appended
sequence); the bootstrap replace-all installs the fetched array without
truncation and is not bounded. -/
theorem series_cap_fifo_on_message (s : HookState) (payload : Option Json) :
    (step s (Event.wsMessage payload)).dataPoints = s.dataPoints
      ∨ ∃ appended : List Json, appended ≠ []
          ∧ (step s (Event.wsMessage payload)).dataPoints
              = (s.dataPoints ++ appended).drop ((s.dataPoints ++ appended).length - 500)
          ∧ (step s (Event.wsMessage payload)).dataPoints.length ≤ 500
          ∧ (s.dataPoints ++ appended).take ((s.dataPoints ++ appended).length - 500)
              ++ (step s (Event.wsMessage payload)).dataPoints
              = s.dataPoints ++ appended := by
  by_cases hws : s.ws = some WsReadyState.OPEN
  · rw [show step s (Event.wsMessage payload) = onmessage payload s from by
      simp [step, hws]]
    rcases onmessage_cases payload s with h | ⟨newDataBatch, _, hne, h⟩
    · exact Or.inl (by rw [h])
    · refine Or.inr ⟨newDataBatch.filter isValidPoint, ?_, ?_, ?_, ?_⟩
      · intro hnil
        rw [hnil] at hne
        simp at hne
      · rw [h]
      · rw [h]
        rw [List.length_drop]
        omega
      · rw [h]
        exact List.take_append_drop _ _
  · exact Or.inl (by rw [show step s (Event.wsMessage payload) = s from by
      simp [step, hws]])
